import Mathlib

/-!
Shallow embedding of the WebRTC signaling and session-proxy layer of the
loan-collection voice-agent service (`src/app.py`), together with proofs of
the specification's claims about it.

The embedding follows the Python source closely:

* JSON request bodies are modelled by the inductive `Json`; Python's
  `dict[key]` (which raises `KeyError`/`TypeError` on failure) becomes an
  `Option`-returning lookup, and `dict.get(key, default)` on a value that may
  not be a dict becomes `pyGet` (whose outer `none` models the
  `AttributeError` raised when the receiver is not a dict).
* `build_ice_servers` mirrors `app.py:build_ice_servers`, returning the
  engine-facing list (`IceServer` objects for aiortc), the client-facing list
  (plain dicts for the browser), and whether the warning-level diagnostic for
  a partial TURN configuration was emitted.
* The signaling handler (`SmallWebRTCRequestHandler`) is framework code that
  is not part of this repository; it is modelled from the specification's
  description of its state machine (see `handle_web_request`).
* `rtvi_start` and `proxy_request` mirror the `/start` and
  `/sessions/{session_id}/{path}` route handlers of `app.py`.
-/

namespace VoiceAgent

/-- JSON values, the shape of request bodies parsed by the service. -/
inductive Json where
  | null
  | bool (b : Bool)
  | num (n : Int)
  | str (s : String)
  | arr (xs : List Json)
  | obj (fields : List (String × Json))

/-- First-match lookup in an association list keyed by strings.  Session
stores and JSON objects are both association lists; new session entries are
prepended, so first-match lookup realises Python's dict-overwrite
semantics. -/
def dictGet {α : Type} : List (String × α) → String → Option α
  | [], _ => none
  | (k, v) :: rest, key => if k = key then some v else dictGet rest key

/-- `d[key]` / `d.get(key)` on a JSON value: field lookup on objects, `none`
otherwise (Python raises `KeyError` on a missing key and `TypeError` on a
non-dict receiver; both paths are failures for the callers modelled here). -/
def Json.get : Json → String → Option Json
  | .obj fields, key => dictGet fields key
  | _, _ => none

/-- `d.get(key, default)` where the receiver may not be a dict: the outer
`none` models the `AttributeError` raised when `d` is not a dict (an uncaught
exception in `rtvi_start`), and the inner `Option` is the looked-up value. -/
def pyGet : Json → String → Option (Option Json)
  | .obj fields, key => some (dictGet fields key)
  | _, _ => none

/-- Python truthiness of a JSON value. -/
def Json.truthy : Json → Bool
  | .null => false
  | .bool b => b
  | .num n => n != 0
  | .str s => !s.isEmpty
  | .arr xs => !xs.isEmpty
  | .obj fields => !fields.isEmpty

/-- `a or b` on an optional JSON value (`dict.get` result) with a JSON
fallback, using Python truthiness. -/
def pyOr (a : Option Json) (b : Json) : Json :=
  match a with
  | some j => if j.truthy then j else b
  | none => b

/-- Engine-facing ICE server entry (pipecat's `IceServer`, consumed by
aiortc): a single URL string plus optional credentials. -/
structure IceServer where
  urls : String
  username : Option String := none
  credential : Option String := none
deriving DecidableEq

/-- Client-facing ICE server entry: the plain dict returned to the browser,
whose `urls` key holds a list of URLs.  The STUN dict carries no
username/credential keys, modelled by `none`. -/
structure ClientIceServer where
  urls : List String
  username : Option String := none
  credential : Option String := none
deriving DecidableEq

/-- The TURN-related environment configuration read by
`build_ice_servers`; `none` models an unset variable. -/
structure Env where
  TURN_URL : Option String
  TURN_USERNAME : Option String
  TURN_CREDENTIAL : Option String

/-- Python's `str.strip()`: drop leading and trailing whitespace. -/
def pyStrip (s : String) : String :=
  String.mk (((s.data.dropWhile Char.isWhitespace).reverse.dropWhile
    Char.isWhitespace).reverse)

/-- Python's `str.endswith(suffix)`. -/
def pyEndsWith (s suffix : String) : Bool :=
  suffix.data.isSuffixOf s.data

/-- The STUN server that is always included. -/
def STUN_URL : String := "stun:stun.l.google.com:19302"

/-- Result of `build_ice_servers`: the engine-facing list, the client-facing
list, and whether the partial/absent-TURN warning was logged. -/
structure BuiltIce where
  server_ice : List IceServer
  client_ice : List ClientIceServer
  warned : Bool

/-- Embedding of `app.py:build_ice_servers`: always one STUN entry; a TURN
entry in both lists when all three TURN fields are non-empty after
stripping; otherwise a warning-level diagnostic and STUN only. -/
def build_ice_servers (env : Env) : BuiltIce :=
  let turn_url := pyStrip (env.TURN_URL.getD "")
  let turn_username := pyStrip (env.TURN_USERNAME.getD "")
  let turn_credential := pyStrip (env.TURN_CREDENTIAL.getD "")
  if !turn_url.isEmpty && !turn_username.isEmpty && !turn_credential.isEmpty then
    { server_ice := [{ urls := STUN_URL },
                     { urls := turn_url, username := some turn_username,
                       credential := some turn_credential }],
      client_ice := [{ urls := [STUN_URL] },
                     { urls := [turn_url], username := some turn_username,
                       credential := some turn_credential }],
      warned := false }
  else
    { server_ice := [{ urls := STUN_URL }],
      client_ice := [{ urls := [STUN_URL] }],
      warned := true }

/-- Number of the three TURN fields that are non-empty after stripping. -/
def turnFieldsSet (env : Env) : Nat :=
  (if (pyStrip (env.TURN_URL.getD "")).isEmpty then 0 else 1) +
  (if (pyStrip (env.TURN_USERNAME.getD "")).isEmpty then 0 else 1) +
  (if (pyStrip (env.TURN_CREDENTIAL.getD "")).isEmpty then 0 else 1)

/-- The rendering of an engine-facing entry as a client-facing dict. -/
def IceServer.toClient (s : IceServer) : ClientIceServer :=
  { urls := [s.urls], username := s.username, credential := s.credential }

/-! ### Signaling requests (pydantic models from pipecat's request handler) -/

/-- One trickle-ICE candidate (pipecat's `IceCandidate` pydantic model):
a candidate string and optional SDP mid / m-line index. -/
structure IceCandidate where
  candidate : String
  sdpMid : Option String := none
  sdpMLineIndex : Option Int := none
deriving DecidableEq

/-- pipecat's `SmallWebRTCRequest`: an SDP offer, with an optional `pc_id`
identifying an existing peer connection for renegotiation and an opaque
`request_data` payload handed to the pipeline bootstrap. -/
structure SmallWebRTCRequest where
  sdp : String
  type : String
  pc_id : Option String := none
  restart_pc : Option Bool := none
  request_data : Option Json := none

/-- pipecat's `SmallWebRTCPatchRequest`: a `pc_id` and the candidates to
apply to that connection. -/
structure SmallWebRTCPatchRequest where
  pc_id : String
  candidates : List IceCandidate
deriving DecidableEq

/-- The SDP answer returned to the client: `{sdp, type, pc_id}`. -/
structure SigAnswer where
  sdp : String
  type : String
  pc_id : String
deriving DecidableEq

/-- Failures of the signaling handler: an unknown `pc_id`, or a failed
media-engine negotiation.  Both surface as exceptions in the Python code. -/
inductive SigError where
  | notFound
  | negotiationFailed
deriving DecidableEq

/-- State of the signaling handler: the set of live peer connections it
owns, keyed by `pc_id`. -/
structure SigState where
  conns : List String
deriving DecidableEq

/-- Modelled from the spec: `SmallWebRTCRequestHandler.handle_web_request`
is imported from the pipecat framework and its source is not part of this
repository.  Per the specification's signaling-handler contract: an offer
without `pc_id` creates a new connection and, when the media-engine exchange
succeeds (`negOk`), invokes the connection-established callback exactly once
(the returned `Bool`); an offer whose `pc_id` names a live connection is a
renegotiation that reuses state and does not re-invoke the callback; an
unknown `pc_id` fails with a not-found condition.  `fresh` is the `pc_id`
generated for a new connection and `ans` the engine-generated answer SDP;
a failed negotiation tears the partial connection down (the prior state is
kept by the caller). -/
def handle_web_request (st : SigState) (req : SmallWebRTCRequest)
    (negOk : Bool) (fresh ans : String) :
    Except SigError (SigState × SigAnswer × Bool) :=
  match req.pc_id with
  | none =>
    if negOk then
      .ok ({ conns := fresh :: st.conns },
           { sdp := ans, type := "answer", pc_id := fresh }, true)
    else
      .error .negotiationFailed
  | some pcid =>
    if pcid ∈ st.conns then
      if negOk then
        .ok (st, { sdp := ans, type := "answer", pc_id := pcid }, false)
      else
        .error .negotiationFailed
    else
      .error .notFound

/-- Modelled from the spec: `SmallWebRTCRequestHandler.handle_patch_request`
is framework code; per the patch contract it looks the connection up by
`pc_id`, fails with not-found when absent, and otherwise applies the
candidates in order to that connection's ICE agent (candidate application
is delegated to the media engine and does not change the set of live
connections). -/
def handle_patch_request (st : SigState) (req : SmallWebRTCPatchRequest) :
    Except SigError SigState :=
  if req.pc_id ∈ st.conns then .ok st else .error .notFound

/-- Embedding of the `POST /api/offer` route handler `app.py:offer`: it
registers the connection-established callback (which schedules the bot
pipeline as a background task) and delegates to `handle_web_request`,
re-raising any exception.  The `Bool` records whether the callback was
invoked. -/
def offer (st : SigState) (req : SmallWebRTCRequest) (negOk : Bool)
    (fresh ans : String) : Except SigError (SigState × SigAnswer × Bool) :=
  handle_web_request st req negOk fresh ans

/-- Embedding of the `PATCH /api/offer` route handler `app.py:ice_candidate`:
delegates to `handle_patch_request` and answers `{"status": "success"}`. -/
def ice_candidate (st : SigState) (req : SmallWebRTCPatchRequest) :
    Except SigError (SigState × String) :=
  (handle_patch_request st req).map (fun st2 => (st2, "success"))

/-- The state after one call to `offer` (on an exception, the handler's
state is whatever it was before the failing negotiation). -/
def offerNext (st : SigState) (req : SmallWebRTCRequest) (negOk : Bool)
    (fresh ans : String) : SigState :=
  match offer st req negOk fresh ans with
  | .ok (st2, _, _) => st2
  | .error _ => st

/-- Whether one call to `offer` invoked the connection-established
callback. -/
def offerInvoked (st : SigState) (req : SmallWebRTCRequest) (negOk : Bool)
    (fresh ans : String) : Bool :=
  match offer st req negOk fresh ans with
  | .ok (_, _, b) => b
  | .error _ => false

/-- One offer submission in a trace: the request together with the
media-engine outcome and the fresh `pc_id` / answer SDP the engine would
produce for it. -/
structure OfferCall where
  req : SmallWebRTCRequest
  negOk : Bool
  fresh : String
  ans : String

/-- Run a list of offer submissions through the handler in order, returning
the final state and the number of connection-established callback
invocations. -/
def runOffers (st : SigState) : List OfferCall → SigState × Nat
  | [] => (st, 0)
  | c :: rest =>
    let invoked := offerInvoked st c.req c.negOk c.fresh c.ans
    let (stFinal, k) := runOffers (offerNext st c.req c.negOk c.fresh c.ans) rest
    (stFinal, (if invoked then 1 else 0) + k)

/-! ### The `/start` route: session creation -/

/-- Lower-case hex digit for a value below 16. -/
def hexDigit (n : Nat) : Char :=
  if n < 10 then Char.ofNat (48 + n) else Char.ofNat (87 + n)

/-- Fixed-width big-endian lower-case hex rendering of `n` with `w`
digits. -/
def hexChars (n w : Nat) : List Char :=
  (List.range w).map (fun i => hexDigit (n / 16 ^ (w - 1 - i) % 16))

/-- The canonical string rendering of a 128-bit UUID value, as produced by
Python's `str(uuid.uuid4())`: 32 lower-case hex digits grouped 8-4-4-4-12
with hyphens.  `uuid4` fixes the version and variant bits of the random
value, which does not affect the rendering's shape, so `n` ranges over all
128-bit values here. -/
def uuidString (n : Nat) : String :=
  let m := n % 2 ^ 128
  String.mk (hexChars (m / 2 ^ 96) 8 ++ '-' ::
    (hexChars (m / 2 ^ 80 % 2 ^ 16) 4 ++ '-' ::
      (hexChars (m / 2 ^ 64 % 2 ^ 16) 4 ++ '-' ::
        (hexChars (m / 2 ^ 48 % 2 ^ 16) 4 ++ '-' ::
          hexChars (m % 2 ^ 48) 12))))

/-- The JSON body of the `/start` response: the session id and, when
present, the `iceConfig` (its `iceServers` list). -/
structure StartResult where
  sessionId : String
  iceConfig : Option (List ClientIceServer)
deriving DecidableEq

/-- Embedding of the `POST /start` route handler `app.py:rtvi_start`.
`clientIce` is the client-facing list built once at startup
(`ICE_CONFIG_FOR_CLIENT["iceServers"]`), `sessions` the in-memory session
store, `parsedBody` the result of `await request.json()` (`none` when the
body is absent or not valid JSON, in which case the handler substitutes the
empty object), and `n` the random 128-bit value behind `uuid.uuid4()`.
Returns the updated store and the response body, or `none` when the handler
raises an uncaught exception (`request_data.get` on a non-dict JSON body),
which the framework turns into an HTTP 500. -/
def rtvi_start (clientIce : List ClientIceServer)
    (sessions : List (String × Json)) (parsedBody : Option Json) (n : Nat) :
    Option (List (String × Json) × StartResult) :=
  let request_data := parsedBody.getD (Json.obj [])
  let session_id := uuidString n
  match pyGet request_data "body" with
  | none => none
  | some bodyField =>
    let sessions2 := (session_id, bodyField.getD (Json.obj [])) :: sessions
    match pyGet request_data "enableDefaultIceServers" with
    | none => none
    | some enable =>
      let iceConfig :=
        if (enable.map Json.truthy).getD false || !clientIce.isEmpty then
          some clientIce
        else
          none
      some (sessions2, { sessionId := session_id, iceConfig := iceConfig })

/-! ### The session proxy -/

/-- The HTTP methods routed to `proxy_request`. -/
inductive Method where
  | GET
  | POST
  | PUT
  | PATCH
  | DELETE
deriving DecidableEq

/-- A required string field of a pydantic model: present and a JSON string,
else validation (or the dict access) fails. -/
def reqStrField (rd : Json) (key : String) : Option String :=
  match rd.get key with
  | some (.str s) => some s
  | _ => none

/-- An optional string field: absent or JSON null yield the default `none`;
a string yields its value; anything else fails validation. -/
def optStrField (rd : Json) (key : String) : Option (Option String) :=
  match rd.get key with
  | none => some none
  | some .null => some none
  | some (.str s) => some (some s)
  | some _ => none

/-- An optional boolean field: absent or JSON null yield the default
`none`; a boolean yields its value; anything else fails validation. -/
def optBoolField (rd : Json) (key : String) : Option (Option Bool) :=
  match rd.get key with
  | none => some none
  | some .null => some none
  | some (.bool b) => some (some b)
  | some _ => none

/-- `IceCandidate(**c)`: `c` must be a dict with a string `candidate` field;
`sdpMid` and `sdpMLineIndex` are optional. -/
def IceCandidate.ofJson (j : Json) : Option IceCandidate := do
  let candidate ← reqStrField j "candidate"
  let sdpMid ← optStrField j "sdpMid"
  let sdpMLineIndex ←
    match j.get "sdpMLineIndex" with
    | none => some none
    | some .null => some none
    | some (.num n) => some (some n)
    | some _ => none
  some { candidate := candidate, sdpMid := sdpMid, sdpMLineIndex := sdpMLineIndex }

/-- Translation of a proxied POST body into a `SmallWebRTCRequest`
(`app.py` lines 234-242): `sdp` and `type` are required, `pc_id` and
`restart_pc` optional, and `request_data` falls back through the body's
`request_data` and `requestData` fields to the session's stored body using
Python `or` truthiness. -/
def parseOffer (rd active_session : Json) : Option SmallWebRTCRequest := do
  let sdp ← reqStrField rd "sdp"
  let ty ← reqStrField rd "type"
  let pcId ← optStrField rd "pc_id"
  let restart ← optBoolField rd "restart_pc"
  some { sdp := sdp, type := ty, pc_id := pcId, restart_pc := restart,
         request_data :=
           some (pyOr (rd.get "request_data")
                      (pyOr (rd.get "requestData") active_session)) }

/-- Translation of a proxied PATCH body into a `SmallWebRTCPatchRequest`
(`app.py` lines 245-250): `pc_id` is required; `candidates` defaults to the
empty list when absent, and each entry must build an `IceCandidate`. -/
def parsePatch (rd : Json) : Option SmallWebRTCPatchRequest := do
  let pcId ← reqStrField rd "pc_id"
  let candidates ←
    match rd.get "candidates" with
    | none => some []
    | some (.arr xs) => xs.mapM IceCandidate.ofJson
    | some _ => none
  some { pc_id := pcId, candidates := candidates }

/-- An HTTP response produced by the proxy: a plain-text `Response` with a
status code, the JSON SDP answer (HTTP 200), or the patch route's
`{"status": "success"}` (HTTP 200). -/
inductive ProxyResponse where
  | plain (status : Nat) (content : String)
  | answer (a : SigAnswer)
  | patchSuccess
deriving DecidableEq

/-- The HTTP status code of a proxy response. -/
def ProxyResponse.statusCode : ProxyResponse → Nat
  | .plain status _ => status
  | .answer _ => 200
  | .patchSuccess => 200

/-- What the proxy delegated to the signaling layer, if anything. -/
inductive Forwarded where
  | offerReq (r : SmallWebRTCRequest)
  | patchReq (p : SmallWebRTCPatchRequest)

/-- Outcome of one proxied request: the signaling state afterwards, the
delegation performed (if any), and the HTTP response. -/
structure ProxyOut where
  sig : SigState
  forwarded : Option Forwarded
  response : ProxyResponse

/-- Embedding of the `/sessions/{session_id}/{path}` route handler
`app.py:proxy_request`.  `sessions` is the session store, `sig` the
signaling handler's state, `body` the request body (`none` when
`await request.json()` would raise), and `negOk`, `fresh`, `ans` the
media-engine outcome for a forwarded offer.  Unknown session ids answer 404
"Invalid session"; on a subpath ending in `api/offer` the body is parsed and
a POST is translated and forwarded to `offer`, a PATCH to `ice_candidate`,
with any exception answered by 400 "Invalid request"; every other case is a
passthrough `Response(status_code=200)`. -/
def proxy_request (sessions : List (String × Json)) (sig : SigState)
    (session_id path : String) (method : Method) (body : Option Json)
    (negOk : Bool) (fresh ans : String) : ProxyOut :=
  match dictGet sessions session_id with
  | none => { sig := sig, forwarded := none, response := .plain 404 "Invalid session" }
  | some active_session =>
    if pyEndsWith path "api/offer" then
      match body with
      | none => { sig := sig, forwarded := none, response := .plain 400 "Invalid request" }
      | some request_data =>
        if method = .POST then
          match parseOffer request_data active_session with
          | none =>
            { sig := sig, forwarded := none, response := .plain 400 "Invalid request" }
          | some webrtc_request =>
            match offer sig webrtc_request negOk fresh ans with
            | .ok (sig2, a, _) =>
              { sig := sig2, forwarded := some (.offerReq webrtc_request),
                response := .answer a }
            | .error _ =>
              { sig := sig, forwarded := some (.offerReq webrtc_request),
                response := .plain 400 "Invalid request" }
        else if method = .PATCH then
          match parsePatch request_data with
          | none =>
            { sig := sig, forwarded := none, response := .plain 400 "Invalid request" }
          | some patch_request =>
            match ice_candidate sig patch_request with
            | .ok (sig2, _) =>
              { sig := sig2, forwarded := some (.patchReq patch_request),
                response := .patchSuccess }
            | .error _ =>
              { sig := sig, forwarded := some (.patchReq patch_request),
                response := .plain 400 "Invalid request" }
        else
          { sig := sig, forwarded := none, response := .plain 200 "" }
    else
      { sig := sig, forwarded := none, response := .plain 200 "" }

/-! ### Theorems about the ICE policy builder -/

/-- The client-facing list is the pointwise rendering of the engine-facing
list (shared helper for the list-agreement results). -/
theorem build_client_eq_map (env : Env) :
    (build_ice_servers env).client_ice
      = (build_ice_servers env).server_ice.map IceServer.toClient := by
  by_cases hcond : (!(pyStrip (env.TURN_URL.getD "")).isEmpty &&
      !(pyStrip (env.TURN_USERNAME.getD "")).isEmpty &&
      !(pyStrip (env.TURN_CREDENTIAL.getD "")).isEmpty) = true <;>
    simp [build_ice_servers, hcond, IceServer.toClient]

/-- C1, as stated, is false on the code: with TURN fully configured at a
`turn:`-scheme URL, `build_ice_servers` produces exactly the STUN and TURN
entries and no additional TURNS variant with the scheme replaced. -/
theorem C1_counterexample :
    (build_ice_servers ⟨some "turn:relay.example.com:3478", some "user1",
        some "pass1"⟩).server_ice
      = [{ urls := STUN_URL },
         { urls := "turn:relay.example.com:3478", username := some "user1",
           credential := some "pass1" }] ∧
    ¬ ∃ e ∈ (build_ice_servers ⟨some "turn:relay.example.com:3478",
        some "user1", some "pass1"⟩).server_ice,
        e.urls = "turns:relay.example.com:3478" := by
  constructor
  · rfl
  · decide

/-- C1 (amended): for every configuration in which TURN_URL, TURN_USERNAME
and TURN_CREDENTIAL are all non-empty after trimming whitespace, the
engine-facing ICE server list contains exactly one STUN entry followed by
exactly one TURN entry with those credentials, and nothing else — in
particular no TURNS variant is appended, whatever the TURN URL scheme. -/
theorem C1_full_turn_list (env : Env)
    (hu : (pyStrip (env.TURN_URL.getD "")).isEmpty = false)
    (hn : (pyStrip (env.TURN_USERNAME.getD "")).isEmpty = false)
    (hc : (pyStrip (env.TURN_CREDENTIAL.getD "")).isEmpty = false) :
    (build_ice_servers env).server_ice
      = [{ urls := STUN_URL },
         { urls := pyStrip (env.TURN_URL.getD ""),
           username := some (pyStrip (env.TURN_USERNAME.getD "")),
           credential := some (pyStrip (env.TURN_CREDENTIAL.getD "")) }] := by
  unfold build_ice_servers
  simp [hu, hn, hc]

/-- Witness for `C1_full_turn_list` at a concrete fully-set TURN
configuration. -/
theorem C1_full_turn_list_witness :
    (build_ice_servers ⟨some "turn:t.example.org", some "u", some "p"⟩).server_ice
      = [{ urls := STUN_URL },
         { urls := pyStrip ((some "turn:t.example.org").getD ""),
           username := some (pyStrip ((some "u").getD "")),
           credential := some (pyStrip ((some "p").getD "")) }] :=
  C1_full_turn_list ⟨some "turn:t.example.org", some "u", some "p"⟩
    (by decide) (by decide) (by decide)

/-- C2: for every configuration, the engine-facing and client-facing ICE
server lists agree: same number of entries, and at each position the same
URLs (the client entry's URL list is the singleton of the engine entry's
URL), the same username, and the same credential. -/
theorem C2_client_matches_server (env : Env) :
    (build_ice_servers env).client_ice.length
        = (build_ice_servers env).server_ice.length ∧
    ∀ i : Nat,
      ((build_ice_servers env).client_ice[i]?).map ClientIceServer.urls
          = ((build_ice_servers env).server_ice[i]?).map (fun s => [s.urls]) ∧
      ((build_ice_servers env).client_ice[i]?).map ClientIceServer.username
          = ((build_ice_servers env).server_ice[i]?).map IceServer.username ∧
      ((build_ice_servers env).client_ice[i]?).map ClientIceServer.credential
          = ((build_ice_servers env).server_ice[i]?).map IceServer.credential := by
  have h := build_client_eq_map env
  refine ⟨by rw [h, List.length_map], fun i => ?_⟩
  rw [h, List.getElem?_map]
  cases (build_ice_servers env).server_ice[i]? <;>
    simp [IceServer.toClient]

/-- C6: for every configuration with exactly one or exactly two of the
three TURN fields non-empty after trimming, both ICE lists contain only the
STUN entry, and the condition is reported through the warning-level
diagnostic (no error, no crash). -/
theorem C6_partial_turn_stun_only (env : Env)
    (h : turnFieldsSet env = 1 ∨ turnFieldsSet env = 2) :
    (build_ice_servers env).server_ice = [{ urls := STUN_URL }] ∧
    (build_ice_servers env).client_ice = [{ urls := [STUN_URL] }] ∧
    (build_ice_servers env).warned = true := by
  have hne : ¬((!(pyStrip (env.TURN_URL.getD "")).isEmpty &&
      !(pyStrip (env.TURN_USERNAME.getD "")).isEmpty &&
      !(pyStrip (env.TURN_CREDENTIAL.getD "")).isEmpty) = true) := by
    intro hall
    simp only [Bool.and_eq_true, Bool.not_eq_true'] at hall
    obtain ⟨⟨h1, h2⟩, h3⟩ := hall
    have h3' : turnFieldsSet env = 3 := by
      simp [turnFieldsSet, h1, h2, h3]
    rcases h with h | h <;> omega
  unfold build_ice_servers
  simp [hne]

/-- Witness for `C6_partial_turn_stun_only`: only TURN_URL set. -/
theorem C6_partial_turn_stun_only_witness :
    (build_ice_servers ⟨some "turn:t.example.org", none, none⟩).server_ice
        = [{ urls := STUN_URL }] ∧
    (build_ice_servers ⟨some "turn:t.example.org", none, none⟩).client_ice
        = [{ urls := [STUN_URL] }] ∧
    (build_ice_servers ⟨some "turn:t.example.org", none, none⟩).warned = true :=
  C6_partial_turn_stun_only ⟨some "turn:t.example.org", none, none⟩
    (Or.inl (by decide))

/-! ### Theorems about the signaling handler -/

/-- A renegotiation offer for a live connection reuses its state and does
not invoke the connection-established callback, whatever the media-engine
outcome. -/
theorem offer_renegotiation_no_callback (st : SigState)
    (req : SmallWebRTCRequest) (negOk : Bool) (fresh ans pcid : String)
    (hreq : req.pc_id = some pcid) (hmem : pcid ∈ st.conns) :
    offerNext st req negOk fresh ans = st ∧
    offerInvoked st req negOk fresh ans = false := by
  unfold offerNext offerInvoked offer handle_web_request
  rw [hreq]
  cases negOk <;> simp [hmem]

/-- A run made only of renegotiation offers for a connection already held
by the handler leaves the state unchanged and never invokes the
connection-established callback. -/
theorem runOffers_renegotiations (st : SigState) (pcid : String)
    (calls : List OfferCall) (hmem : pcid ∈ st.conns)
    (hall : ∀ c ∈ calls, c.req.pc_id = some pcid) :
    runOffers st calls = (st, 0) := by
  induction calls with
  | nil => rfl
  | cons c rest ih =>
    obtain ⟨hnext, hinv⟩ := offer_renegotiation_no_callback st c.req c.negOk
      c.fresh c.ans pcid (hall c (List.mem_cons_self c rest)) hmem
    simp [runOffers, hnext, hinv,
      ih (fun d hd => hall d (List.mem_cons_of_mem c hd))]

/-- C3: the connection-established callback is invoked exactly once across
a connection's lifetime: a successful offer with no `pc_id` invokes it
once, and every subsequent renegotiation offer carrying the returned
`pc_id` (whether its renegotiation succeeds or not) does not invoke it
again, so the whole trace performs exactly one invocation. -/
theorem C3_callback_exactly_once (st : SigState) (req0 : SmallWebRTCRequest)
    (fresh ans : String) (calls : List OfferCall)
    (h0 : req0.pc_id = none)
    (hall : ∀ c ∈ calls, c.req.pc_id = some fresh) :
    offerInvoked st req0 true fresh ans = true ∧
    (runOffers st ({ req := req0, negOk := true, fresh := fresh, ans := ans }
        :: calls)).2 = 1 := by
  have hnext : offerNext st req0 true fresh ans = { conns := fresh :: st.conns } := by
    unfold offerNext offer handle_web_request
    rw [h0]
    rfl
  have hinv : offerInvoked st req0 true fresh ans = true := by
    unfold offerInvoked offer handle_web_request
    rw [h0]
    rfl
  refine ⟨hinv, ?_⟩
  have hrest : runOffers { conns := fresh :: st.conns } calls
      = ({ conns := fresh :: st.conns }, 0) :=
    runOffers_renegotiations _ fresh calls (List.mem_cons_self fresh st.conns) hall
  simp [runOffers, hnext, hinv, hrest]

/-- Witness for `C3_callback_exactly_once`: a fresh offer followed by two
renegotiations of the same connection, one successful and one failed. -/
theorem C3_callback_exactly_once_witness :
    offerInvoked ⟨[]⟩ { sdp := "v=0", type := "offer" } true "pc1" "sdpA" = true ∧
    (runOffers ⟨[]⟩
      [{ req := { sdp := "v=0", type := "offer" }, negOk := true,
         fresh := "pc1", ans := "sdpA" },
       { req := { sdp := "v=1", type := "offer", pc_id := some "pc1" },
         negOk := true, fresh := "pc2", ans := "sdpB" },
       { req := { sdp := "v=2", type := "offer", pc_id := some "pc1" },
         negOk := false, fresh := "pc3", ans := "sdpC" }]).2 = 1 :=
  C3_callback_exactly_once ⟨[]⟩ { sdp := "v=0", type := "offer" } "pc1" "sdpA"
    [{ req := { sdp := "v=1", type := "offer", pc_id := some "pc1" },
       negOk := true, fresh := "pc2", ans := "sdpB" },
     { req := { sdp := "v=2", type := "offer", pc_id := some "pc1" },
       negOk := false, fresh := "pc3", ans := "sdpC" }]
    rfl (by intro c hc; fin_cases hc <;> rfl)

/-! ### Theorems about session creation (`POST /start`) -/

/-- A fixed-width hex rendering has exactly its requested width. -/
theorem hexChars_length (n w : Nat) : (hexChars n w).length = w := by
  simp [hexChars]

/-- The canonical UUID rendering is always 36 characters long. -/
theorem uuidString_length (n : Nat) : (uuidString n).length = 36 := by
  simp [uuidString, String.length, hexChars_length]

/-- The client-facing ICE list built at startup always begins with the STUN
entry, whatever the configuration. -/
theorem client_ice_head (env : Env) :
    ∃ rest, (build_ice_servers env).client_ice
      = { urls := [STUN_URL] } :: rest := by
  by_cases hcond : (!(pyStrip (env.TURN_URL.getD "")).isEmpty &&
      !(pyStrip (env.TURN_USERNAME.getD "")).isEmpty &&
      !(pyStrip (env.TURN_CREDENTIAL.getD "")).isEmpty) = true
  · refine ⟨[{ urls := [pyStrip (env.TURN_URL.getD "")],
               username := some (pyStrip (env.TURN_USERNAME.getD "")),
               credential := some (pyStrip (env.TURN_CREDENTIAL.getD "")) }], ?_⟩
    simp [build_ice_servers, hcond]
  · refine ⟨[], ?_⟩
    simp [build_ice_servers, hcond]

/-- C7: creating a session stores the request's `body` field under a fresh
id and hands that id back; looking the id up returns the original body,
while looking up (through the session proxy) any id that no create
returned yields HTTP 404 "Invalid session" with no signaling side
effect. -/
theorem C7_create_get_roundtrip (clientIce : List ClientIceServer)
    (sessions : List (String × Json)) (b : Json) (n : Nat) (sig : SigState)
    (other path : String) (method : Method) (body2 : Option Json)
    (negOk : Bool) (fresh ans : String)
    (hother : dictGet ((uuidString n, b) :: sessions) other = none) :
    (∃ res, rtvi_start clientIce sessions (some (Json.obj [("body", b)])) n
        = some ((uuidString n, b) :: sessions, res) ∧
      res.sessionId = uuidString n) ∧
    dictGet ((uuidString n, b) :: sessions) (uuidString n) = some b ∧
    (proxy_request ((uuidString n, b) :: sessions) sig other path method
        body2 negOk fresh ans).response = .plain 404 "Invalid session" ∧
    (proxy_request ((uuidString n, b) :: sessions) sig other path method
        body2 negOk fresh ans).sig = sig ∧
    (proxy_request ((uuidString n, b) :: sessions) sig other path method
        body2 negOk fresh ans).forwarded = none := by
  refine ⟨⟨{ sessionId := uuidString n,
             iceConfig := if !clientIce.isEmpty then some clientIce else none },
      rfl, rfl⟩, ?_, ?_, ?_, ?_⟩
  · simp [dictGet]
  · simp [proxy_request, hother]
  · simp [proxy_request, hother]
  · simp [proxy_request, hother]

/-- Witness for `C7_create_get_roundtrip`: create in an empty store, then
look up an id no create returned. -/
theorem C7_create_get_roundtrip_witness :
    ((∃ res, rtvi_start [] [] (some (Json.obj [("body", Json.null)])) 0
        = some ([(uuidString 0, Json.null)], res) ∧
      res.sessionId = uuidString 0) ∧
    dictGet [(uuidString 0, Json.null)] (uuidString 0) = some Json.null ∧
    (proxy_request [(uuidString 0, Json.null)] ⟨[]⟩ "nope" "api/offer" .GET
        none true "f" "a").response = .plain 404 "Invalid session" ∧
    (proxy_request [(uuidString 0, Json.null)] ⟨[]⟩ "nope" "api/offer" .GET
        none true "f" "a").sig = (⟨[]⟩ : SigState) ∧
    (proxy_request [(uuidString 0, Json.null)] ⟨[]⟩ "nope" "api/offer" .GET
        none true "f" "a").forwarded = none) :=
  C7_create_get_roundtrip [] [] Json.null 0 ⟨[]⟩ "nope" "api/offer" .GET
    none true "f" "a" (by rfl)

/-- C8, as stated, is false on the code: a `POST /start` whose body is
valid JSON but not an object (here the empty array) makes
`request_data.get("body", {})` raise `AttributeError`, so the handler
produces no response at all (the framework answers HTTP 500) — in
particular no 36-character session id. -/
theorem C8_counterexample :
    rtvi_start (build_ice_servers ⟨none, none, none⟩).client_ice []
        (some (Json.arr [])) 0 = none ∧
    ¬ ∃ p, rtvi_start (build_ice_servers ⟨none, none, none⟩).client_ice []
        (some (Json.arr [])) 0 = some p := by
  refine ⟨rfl, ?_⟩
  rintro ⟨p, hp⟩
  rw [show rtvi_start (build_ice_servers ⟨none, none, none⟩).client_ice []
      (some (Json.arr [])) 0 = none from rfl] at hp
  exact Option.noConfusion hp

/-- C8 (amended): for every `POST /start` request whose body is absent, not
valid JSON, or a JSON object, the response carries a 36-character session
id and an `iceConfig` whose `iceServers` list has at least one entry. -/
theorem C8_start_response (env : Env) (sessions : List (String × Json))
    (parsedBody : Option Json) (n : Nat)
    (h : parsedBody = none ∨ ∃ fields, parsedBody = some (Json.obj fields)) :
    ∃ sessions2 res,
      rtvi_start (build_ice_servers env).client_ice sessions parsedBody n
          = some (sessions2, res) ∧
      res.sessionId.length = 36 ∧
      ∃ l, res.iceConfig = some l ∧ 1 ≤ l.length := by
  obtain ⟨rest, hice⟩ := client_ice_head env
  have hne : (build_ice_servers env).client_ice.isEmpty = false := by
    rw [hice]; rfl
  have hlen : 1 ≤ (build_ice_servers env).client_ice.length := by
    rw [hice]
    simp
  rcases h with h | ⟨fields, h⟩ <;> subst h
  · refine ⟨(uuidString n, Json.obj []) :: sessions,
      { sessionId := uuidString n,
        iceConfig := some (build_ice_servers env).client_ice }, ?_,
      uuidString_length n, (build_ice_servers env).client_ice, rfl, hlen⟩
    simp [rtvi_start, pyGet, dictGet, hne]
  · refine ⟨(uuidString n, (dictGet fields "body").getD (Json.obj []))
        :: sessions,
      { sessionId := uuidString n,
        iceConfig := some (build_ice_servers env).client_ice }, ?_,
      uuidString_length n, (build_ice_servers env).client_ice, rfl, hlen⟩
    simp [rtvi_start, pyGet, hne]

/-- Witness for `C8_start_response` at the spec's end-to-end input: `POST
/start` with body `{}` under a TURN-less configuration. -/
theorem C8_start_response_witness :
    ∃ sessions2 res,
      rtvi_start (build_ice_servers ⟨none, none, none⟩).client_ice []
          (some (Json.obj [])) 7
          = some (sessions2, res) ∧
      res.sessionId.length = 36 ∧
      ∃ l, res.iceConfig = some l ∧ 1 ≤ l.length :=
  C8_start_response ⟨none, none, none⟩ [] (some (Json.obj [])) 7
    (Or.inr ⟨[], rfl⟩)

/-- C9: a `POST /start` whose body is absent or not valid JSON is treated
as the empty object: the handler stores an empty session body under a
fresh id and still answers successfully with that id. -/
theorem C9_malformed_body_start (clientIce : List ClientIceServer)
    (sessions : List (String × Json)) (n : Nat) :
    ∃ res, rtvi_start clientIce sessions none n
        = some (((uuidString n), Json.obj []) :: sessions, res) ∧
      res.sessionId = uuidString n :=
  ⟨_, rfl, rfl⟩

/-! ### Theorems about the session proxy -/

/-- C4: a session-proxy POST to a subpath ending in `api/offer` for a known
session whose JSON body lacks the `sdp` field answers HTTP 400 "Invalid
request" — a client error, not a success and not an uncaught crash. -/
theorem C4_proxy_offer_missing_sdp (sessions : List (String × Json))
    (sig : SigState) (session_id path : String)
    (fields : List (String × Json)) (negOk : Bool) (fresh ans : String)
    (sessBody : Json)
    (hs : dictGet sessions session_id = some sessBody)
    (hp : pyEndsWith path "api/offer" = true)
    (hsdp : dictGet fields "sdp" = none) :
    (proxy_request sessions sig session_id path .POST
        (some (.obj fields)) negOk fresh ans).response
      = .plain 400 "Invalid request" ∧
    (proxy_request sessions sig session_id path .POST
        (some (.obj fields)) negOk fresh ans).response.statusCode ≠ 200 := by
  have hparse : parseOffer (Json.obj fields) sessBody = none := by
    simp [parseOffer, reqStrField, Json.get, hsdp]
  refine ⟨?_, ?_⟩ <;>
    simp [proxy_request, hs, hp, hparse, ProxyResponse.statusCode]

/-- Witness for `C4_proxy_offer_missing_sdp`: a body carrying only `type`. -/
theorem C4_proxy_offer_missing_sdp_witness :
    (proxy_request [("s1", Json.obj [])] ⟨[]⟩ "s1" "api/offer" .POST
        (some (.obj [("type", Json.str "offer")])) true "pc1" "sdpA").response
      = .plain 400 "Invalid request" ∧
    ((proxy_request [("s1", Json.obj [])] ⟨[]⟩ "s1" "api/offer" .POST
        (some (.obj [("type", Json.str "offer")])) true "pc1"
        "sdpA").response).statusCode ≠ 200 :=
  C4_proxy_offer_missing_sdp [("s1", Json.obj [])] ⟨[]⟩ "s1" "api/offer"
    [("type", Json.str "offer")] true "pc1" "sdpA" (Json.obj [])
    (by rfl) (by rfl) (by rfl)

/-- C5, as stated, is false on the code: a GET (neither offer submission
nor candidate patch) to a known session's `api/offer` subpath with a body
that is not valid JSON is answered with HTTP 400, not a success — the
handler parses the body before looking at the method. -/
theorem C5_counterexample :
    (proxy_request [("sid0", Json.obj [])] ⟨[]⟩ "sid0" "api/offer" .GET
        none true "f" "a").response.statusCode = 400 ∧
    ¬ (proxy_request [("sid0", Json.obj [])] ⟨[]⟩ "sid0" "api/offer" .GET
        none true "f" "a").response.statusCode = 200 := by
  refine ⟨rfl, ?_⟩
  intro h
  rw [show (proxy_request [("sid0", Json.obj [])] ⟨[]⟩ "sid0" "api/offer"
      .GET none true "f" "a").response.statusCode = 400 from rfl] at h
  exact absurd h (by decide)

/-- C5 (amended): for a known session, any subpath/method combination that
is neither a POST nor a PATCH to an `api/offer` subpath performs no
signaling side effect, and answers success (HTTP 200, empty passthrough
response) — except that when the subpath ends in `api/offer` and the body
is not valid JSON, the body parse raises first and the proxy answers HTTP
400 "Invalid request". -/
theorem C5_passthrough (sessions : List (String × Json)) (sig : SigState)
    (session_id path : String) (method : Method) (body : Option Json)
    (negOk : Bool) (fresh ans : String) (sessBody : Json)
    (hs : dictGet sessions session_id = some sessBody)
    (hpost : ¬(method = Method.POST ∧ pyEndsWith path "api/offer" = true))
    (hpatch : ¬(method = Method.PATCH ∧ pyEndsWith path "api/offer" = true)) :
    (proxy_request sessions sig session_id path method body negOk fresh
        ans).sig = sig ∧
    (proxy_request sessions sig session_id path method body negOk fresh
        ans).forwarded = none ∧
    (proxy_request sessions sig session_id path method body negOk fresh
        ans).response
      = (if pyEndsWith path "api/offer" && body.isNone then
          .plain 400 "Invalid request"
         else .plain 200 "") := by
  by_cases hp : pyEndsWith path "api/offer" = true
  · have hm1 : ¬(method = Method.POST) := fun h => hpost ⟨h, hp⟩
    have hm2 : ¬(method = Method.PATCH) := fun h => hpatch ⟨h, hp⟩
    cases body with
    | none => refine ⟨?_, ?_, ?_⟩ <;> simp [proxy_request, hs, hp]
    | some rd => refine ⟨?_, ?_, ?_⟩ <;>
        simp [proxy_request, hs, hp, hm1, hm2]
  · have hp' : pyEndsWith path "api/offer" = false := by
      simpa using hp
    cases body with
    | none => refine ⟨?_, ?_, ?_⟩ <;> simp [proxy_request, hs, hp']
    | some rd => refine ⟨?_, ?_, ?_⟩ <;> simp [proxy_request, hs, hp']

/-- Witness for `C5_passthrough`: a DELETE to a known session's `api/offer`
subpath with a valid JSON body. -/
theorem C5_passthrough_witness :
    (proxy_request [("s2", Json.obj [])] ⟨[]⟩ "s2" "api/offer" .DELETE
        (some (Json.obj [])) true "f" "a").sig = (⟨[]⟩ : SigState) ∧
    (proxy_request [("s2", Json.obj [])] ⟨[]⟩ "s2" "api/offer" .DELETE
        (some (Json.obj [])) true "f" "a").forwarded = none ∧
    (proxy_request [("s2", Json.obj [])] ⟨[]⟩ "s2" "api/offer" .DELETE
        (some (Json.obj [])) true "f" "a").response
      = (if pyEndsWith "api/offer" "api/offer" && (some (Json.obj [])).isNone
          then .plain 400 "Invalid request"
         else .plain 200 "") :=
  C5_passthrough [("s2", Json.obj [])] ⟨[]⟩ "s2" "api/offer" .DELETE
    (some (Json.obj [])) true "f" "a" (Json.obj []) (by rfl)
    (by simp) (by simp)

/-- C10: a session-proxy PATCH to `api/offer` for a known session whose
body carries a string `pc_id` but no `candidates` field is translated into
a `SmallWebRTCPatchRequest` with an empty candidate list and forwarded to
the patch handler (it is not rejected as a malformed-body client error);
when the `pc_id` is live, the response is the patch route's success
answer. -/
theorem C10_patch_missing_candidates (sessions : List (String × Json))
    (sig : SigState) (session_id path : String)
    (fields : List (String × Json)) (negOk : Bool) (fresh ans : String)
    (sessBody : Json) (pcid : String)
    (hs : dictGet sessions session_id = some sessBody)
    (hp : pyEndsWith path "api/offer" = true)
    (hpc : dictGet fields "pc_id" = some (Json.str pcid))
    (hnc : dictGet fields "candidates" = none) :
    (proxy_request sessions sig session_id path .PATCH
        (some (.obj fields)) negOk fresh ans).forwarded
      = some (.patchReq { pc_id := pcid, candidates := [] }) ∧
    (pcid ∈ sig.conns →
      (proxy_request sessions sig session_id path .PATCH
          (some (.obj fields)) negOk fresh ans).response = .patchSuccess) := by
  have hparse : parsePatch (Json.obj fields)
      = some { pc_id := pcid, candidates := [] } := by
    simp [parsePatch, reqStrField, Json.get, hpc, hnc]
  by_cases hmem : pcid ∈ sig.conns
  · refine ⟨?_, fun _ => ?_⟩ <;>
      simp [proxy_request, hs, hp, hparse, ice_candidate,
        handle_patch_request, hmem, Except.map]
  · refine ⟨?_, fun hmem2 => absurd hmem2 hmem⟩
    simp [proxy_request, hs, hp, hparse, ice_candidate,
      handle_patch_request, hmem, Except.map]

/-- Witness for `C10_patch_missing_candidates`: patching a live connection
with a body carrying only `pc_id`. -/
theorem C10_patch_missing_candidates_witness :
    (proxy_request [("s3", Json.obj [])] ⟨["pc1"]⟩ "s3" "api/offer" .PATCH
        (some (.obj [("pc_id", Json.str "pc1")])) true "f" "a").forwarded
      = some (.patchReq { pc_id := "pc1", candidates := [] }) ∧
    ("pc1" ∈ (⟨["pc1"]⟩ : SigState).conns →
      (proxy_request [("s3", Json.obj [])] ⟨["pc1"]⟩ "s3" "api/offer" .PATCH
          (some (.obj [("pc_id", Json.str "pc1")])) true "f" "a").response
        = .patchSuccess) :=
  C10_patch_missing_candidates [("s3", Json.obj [])] ⟨["pc1"]⟩ "s3"
    "api/offer" [("pc_id", Json.str "pc1")] true "f" "a" (Json.obj []) "pc1"
    (by rfl) (by rfl) (by rfl) (by rfl)

end VoiceAgent
